import Mathlib

/-!
Verification development for the Lagrangian-Eulerian coupling engine of
`IBFEMethod` (header `src/include/ibamr/IBFEMethod.h`).  The repository ships
only the class declaration; every method body is modelled from the
specification, with exact rational arithmetic standing in for `double`.
-/

namespace IBFE

/-- Scalars of the model: exact rationals stand in for C++ `double`. -/
abbrev Scalar := ℚ

/-- The time interval `(current_time, new_time)` passed to the explicit
time-stepping routines. -/
structure TimeInterval where
  current_time : Scalar
  new_time : Scalar

/-- `dt = new_time - current_time`, the step size used by every update rule. -/
def TimeInterval.dt (ti : TimeInterval) : Scalar :=
  ti.new_time - ti.current_time

/-- The half time `d_half_time = current_time + dt/2`. -/
def TimeInterval.half_time (ti : TimeInterval) : Scalar :=
  ti.current_time + ti.dt / 2

/-- Per-part registry vectors for one integration step: the current-, half- and
new-time nodal position vectors and the current-, half- and new-time nodal
velocity vectors (`d_X_current_vecs`, `d_X_half_vecs`, `d_X_new_vecs`,
`d_U_current_vecs`, `d_U_half_vecs`, `d_U_new_vecs` in the header).  Each
scalar degree of freedom (node and component) is one index of `Fin n`. -/
structure PartVectors (n : ℕ) where
  X_current : Fin n → Scalar
  X_half : Fin n → Scalar
  X_new : Fin n → Scalar
  U_current : Fin n → Scalar
  U_half : Fin n → Scalar
  U_new : Fin n → Scalar

/-- The per-part state owned by the registry: `d_num_parts` parts, each with
its own nodal vectors (`n` scalar degrees of freedom per part). -/
structure MethodState (np n : ℕ) where
  parts : Fin np → PartVectors n

/-- Modelled from the spec: the body of `IBFEMethod::forwardEulerStep` is not
under `src/` (the header only declares it).  Spec 4.3, Forward Euler:
`X_new = X_current + dt * U_current` with `dt = new_time - current_time`,
applied to every part; the provisional half-time position is the same update
with `dt/2`. -/
def forwardEulerStepPart (ti : TimeInterval) (p : PartVectors n) : PartVectors n :=
  { p with
    X_half := fun i => p.X_current i + ti.dt / 2 * p.U_current i
    X_new := fun i => p.X_current i + ti.dt * p.U_current i }

/-- `forwardEulerStep` advances every part's position vectors. -/
def forwardEulerStep (ti : TimeInterval) (s : MethodState np n) : MethodState np n :=
  ⟨fun k => forwardEulerStepPart ti (s.parts k)⟩

/-- Modelled from the spec: the body of `IBFEMethod::midpointStep` is not
under `src/`.  Spec 4.3, Midpoint rule: form the provisional half-time
position `X_half = X_current + 0.5*dt*U_current`, interpolate the velocity at
the half time step at that position (`interp` abstracts the grid-to-mesh
transfer of `interpolateVelocity`), then `X_new = X_current + dt * U_half`. -/
def midpointStepPart (interp : Scalar → (Fin n → Scalar) → Fin n → Scalar)
    (ti : TimeInterval) (p : PartVectors n) : PartVectors n :=
  let Xh : Fin n → Scalar := fun i => p.X_current i + ti.dt / 2 * p.U_current i
  let Uh : Fin n → Scalar := interp ti.half_time Xh
  { p with
    X_half := Xh
    U_half := Uh
    X_new := fun i => p.X_current i + ti.dt * Uh i }

/-- `midpointStep` advances every part's position vectors by the midpoint
rule, driven by the grid-to-mesh velocity interpolation operator. -/
def midpointStep (interp : Scalar → (Fin n → Scalar) → Fin n → Scalar)
    (ti : TimeInterval) (s : MethodState np n) : MethodState np n :=
  ⟨fun k => midpointStepPart interp ti (s.parts k)⟩

/-- Modelled from the spec: the body of `IBFEMethod::trapezoidalStep` is not
under `src/`.  Spec 4.3, Trapezoidal rule:
`X_new = X_current + 0.5*dt*(U_current + U_new)`, reading the part's current-
and new-time velocity vectors, which were filled by `interpolateVelocity` at
the two endpoint time levels. -/
def trapezoidalStepPart (ti : TimeInterval) (p : PartVectors n) : PartVectors n :=
  { p with
    X_new := fun i => p.X_current i + ti.dt / 2 * (p.U_current i + p.U_new i) }

/-- `trapezoidalStep` advances every part's position vectors by the
trapezoidal rule. -/
def trapezoidalStep (ti : TimeInterval) (s : MethodState np n) : MethodState np n :=
  ⟨fun k => trapezoidalStepPart ti (s.parts k)⟩

/-- The coordinate mapping function data of the header
(`IBFEMethod::CoordinateMappingFcnData`): an optional callback mapping a
reference (Lagrangian) point to an initial physical point; `none` models the
`NULL` function pointer default. -/
structure CoordinateMappingFcnData (Pt : Type) where
  fcn : Option (Pt → Pt)

/-- Apply a coordinate mapping callback once to one point; the identity when
no callback is registered (header note on
`registerInitialCoordinateMappingFunction`: the initial coordinate mapping is
assumed to be the identity mapping when no function is provided). -/
def applyCoordinateMapping (d : CoordinateMappingFcnData Pt) (X : Pt) : Pt :=
  match d.fcn with
  | none => X
  | some f => f X

/-- The per-part coordinate data the registry owns at setup: the immutable
reference (Lagrangian) coordinates `X0` of each node and the registered
coordinate mapping callback (`d_coordinate_mapping_fcn_data`). -/
structure CoordRegistry (np n : ℕ) (Pt : Type) where
  X0 : Fin np → Fin n → Pt
  mapping : Fin np → CoordinateMappingFcnData Pt

/-- Modelled from the spec: the body of `IBFEMethod::initializeCoordinates` is
not under `src/`.  Spec 4.4 and the header doc: initialize the physical
coordinates of part `part` by applying the supplied coordinate mapping
function once per node to the Lagrangian coordinates; if no function is
provided the physical coordinates are the Lagrangian coordinates. -/
def initializeCoordinates (r : CoordRegistry np n Pt) (part : Fin np) : Fin n → Pt :=
  fun i => applyCoordinateMapping (r.mapping part) (r.X0 part i)

/-- Modelled from the spec: `IBFEMethod::initializeFEData` (body not under
`src/`) runs the setup pass, calling `initializeCoordinates` once for each
part in index order.  This list records, in order, the parts for which the
coordinate mapping is applied during setup. -/
def setupCoordinatePasses (np : ℕ) : List (Fin np) :=
  List.finRange np

/-- A transfer kernel on `m` grid cells and `n` mesh degrees of freedom:
`w c k` is the configured kernel (delta-function shape and width, with the FE
quadrature weights folded in) evaluated between grid cell `c` and mesh node
`k`.  The kernel shape and width come from the part's interp/spread spec. -/
structure TransferKernel (m n : ℕ) where
  w : Fin m → Fin n → Scalar

/-- Modelled from the spec: the body of `IBFEMethod::spreadForce` is not under
`src/`.  Spec 4.1: spreading maps nodal force densities (already multiplied by
the appropriate quadrature weights) onto grid points with the kernel applied
in the adjoint/transpose sense: each grid cell accumulates the kernel-weighted
contributions of every node. -/
def spreadForce (κ : TransferKernel m n) (g : Fin n → Scalar) : Fin m → Scalar :=
  fun c => ∑ k, κ.w c k * g k

/-- Modelled from the spec: the body of `IBFEMethod::interpolateVelocity` is
not under `src/`.  Spec 4.1: interpolation evaluates the configured kernel
against grid samples in a neighborhood of each mesh node; each node receives
the kernel-weighted combination of the grid values. -/
def interpolateVelocity (κ : TransferKernel m n) (f : Fin m → Scalar) : Fin n → Scalar :=
  fun k => ∑ c, κ.w c k * f c

/-- Sum of a grid field over all grid cells (its discrete integral). -/
def gridTotal (F : Fin m → Scalar) : Scalar := ∑ c, F c

/-- Integral of a nodal field over the mesh; the quadrature weights are
already folded into the nodal values, as in `spreadForce` (spec 4.1). -/
def meshTotal (g : Fin n → Scalar) : Scalar := ∑ k, g k

/-- The kernel's discrete conservation (zeroth-moment) condition: the spread
weights attached to each node sum to one over the grid.  Every configured IB
kernel width satisfies this up to its conservation order; in the exact model
it is the hypothesis under which spreading conserves total force. -/
def TransferKernel.conservative (κ : TransferKernel m n) : Prop :=
  ∀ k, ∑ c, κ.w c k = 1

/-- Discrete mesh inner product of two nodal fields. -/
def meshInner (g h : Fin n → Scalar) : Scalar := ∑ k, g k * h k

/-- Discrete grid inner product of two grid fields. -/
def gridInner (f F : Fin m → Scalar) : Scalar := ∑ c, f c * F c

/-- The jump-field systems of one part: pressure jump `P_j` and its correction
`dP_j`, the first velocity-gradient jump components `du_j`, `dv_j`, `dw_j`,
and the second-derivative components `d2u_j`, `d2v_j`, `d2w_j` (header system
vectors `d_P_j_systems` ... `d_d2w_j_systems`). -/
structure JumpSystems (n : ℕ) where
  P_j : Fin n → Scalar
  dP_j : Fin n → Scalar
  du_j : Fin n → Scalar
  dv_j : Fin n → Scalar
  dw_j : Fin n → Scalar
  d2u_j : Fin n → Scalar
  d2v_j : Fin n → Scalar
  d2w_j : Fin n → Scalar

/-- Abstract constitutive data of one part, feeding
`computeInteriorForceDensity`: `unsplitForce X` is the interior elastic force
density obtained from the constitutive relation on the deformed configuration
`X`; `normalComponent X` is the normal transmission component split off at the
boundary when jump handling is enabled; the remaining fields are the jump
terms derived from that splitting.  All are opaque to this model. -/
structure ForceModel (n : ℕ) where
  unsplitForce : (Fin n → Scalar) → Fin n → Scalar
  normalComponent : (Fin n → Scalar) → Fin n → Scalar
  pressureJump : (Fin n → Scalar) → JumpSystems n

/-- Output of one interior force-density computation: the force system vector
and the jump-field systems, which exist only when jump handling is enabled
for the part (spec 3: absent, not merely zero, otherwise). -/
structure ForceOutput (n : ℕ) where
  F : Fin n → Scalar
  jump : Option (JumpSystems n)

/-- Modelled from the spec: the body of
`IBFEMethod::computeInteriorForceDensity` is not under `src/`.  Spec 4.2: when
`d_use_jump_conditions` is enabled the interior force is decomposed at the
boundary, the normal component being carried as the jump contributions;
otherwise the unsplit interior force density is produced and no jump-field
system is created or written. -/
def computeInteriorForceDensity (fm : ForceModel n) (use_jump_conditions : Bool)
    (X : Fin n → Scalar) : ForceOutput n :=
  if use_jump_conditions then
    { F := fun i => fm.unsplitForce X i - fm.normalComponent X i
      jump := some (fm.pressureJump X) }
  else
    { F := fm.unsplitForce X
      jump := none }

/-- Modelled from the spec: the interior force density of a configuration with
jump handling compiled out is the unsplit constitutive force itself
(spec 8, jump-term toggling). -/
def interiorForceDensityNoJump (fm : ForceModel n) (X : Fin n → Scalar) :
    Fin n → Scalar :=
  fm.unsplitForce X

/-- Which of the two jump-imposition routines runs. -/
inductive JumpCall where
  | weak
  | pointwise
deriving DecidableEq

/-- The jump-condition configuration flags: `d_use_jump_conditions` from the
header, and, modelled from the spec (4.2), the sub-flag selecting the weak
versus the pointwise form. -/
structure JumpConfig where
  use_jump_conditions : Bool
  use_weak_form : Bool

/-- Modelled from the spec: the call sites of
`IBFEMethod::imposeJumpConditionsWeak` and
`IBFEMethod::imposeJumpConditionsPointWise` are not under `src/`.  Spec 4.2,
Policy: per part and step, nothing is invoked when `d_use_jump_conditions` is
off; otherwise exactly one of the two routines is invoked, the weak form when
the sub-flag selects it and the pointwise form otherwise.  The list records,
in order, the routines invoked for one part on one step. -/
def jumpCallsForStep (cfg : JumpConfig) : List JumpCall :=
  if cfg.use_jump_conditions then
    if cfg.use_weak_form then [JumpCall.weak] else [JumpCall.pointwise]
  else []

/-- The registry configuration state of one `IBFEMethod` object: the
`d_fe_data_initialized` flag, and per part the stress-normalization flag, the
registered callbacks (`d_coordinate_mapping_fcn_data`, `d_lag_force_fcn_data`)
and the interp and spread specs (`d_interp_spec`, `d_spread_spec`).  The
callback and spec payload types are opaque to this model. -/
structure RegistryState (np : ℕ) (MapFcn ForceFcn ISpec SSpec : Type) where
  fe_data_initialized : Bool
  stress_normalization_part : Fin np → Bool
  coordinate_mapping_fcn : Fin np → Option MapFcn
  lag_force_fcn : Fin np → Option ForceFcn
  interp_spec : Fin np → ISpec
  spread_spec : Fin np → SSpec

/-- Error raised by a registration or configuration call made after
`initializeFEData` has frozen the configuration. -/
inductive RegErr where
  | alreadyInitialized
deriving DecidableEq

/-- Modelled from the spec: the body of `IBFEMethod::initializeFEData` is not
under `src/`.  It completes FE setup and sets `d_fe_data_initialized`,
freezing the per-part configuration. -/
def initializeFEData (s : RegistryState np MapFcn ForceFcn ISpec SSpec) :
    RegistryState np MapFcn ForceFcn ISpec SSpec :=
  { s with fe_data_initialized := true }

/-- The registry with part `part` marked as using stress normalization. -/
def withStressNormalization (s : RegistryState np MapFcn ForceFcn ISpec SSpec)
    (part : Fin np) : RegistryState np MapFcn ForceFcn ISpec SSpec :=
  { s with stress_normalization_part :=
      Function.update s.stress_normalization_part part true }

/-- The registry with coordinate mapping callback `data` stored for `part`. -/
def withCoordinateMapping (s : RegistryState np MapFcn ForceFcn ISpec SSpec)
    (data : MapFcn) (part : Fin np) : RegistryState np MapFcn ForceFcn ISpec SSpec :=
  { s with coordinate_mapping_fcn :=
      Function.update s.coordinate_mapping_fcn part (some data) }

/-- The registry with body-force callback `data` stored for `part`,
overwriting the part's single callback slot. -/
def withLagForceFcn (s : RegistryState np MapFcn ForceFcn ISpec SSpec)
    (data : ForceFcn) (part : Fin np) : RegistryState np MapFcn ForceFcn ISpec SSpec :=
  { s with lag_force_fcn := Function.update s.lag_force_fcn part (some data) }

/-- The registry with interpolation spec `spec` set for `part`. -/
def withInterpSpec (s : RegistryState np MapFcn ForceFcn ISpec SSpec)
    (spec : ISpec) (part : Fin np) : RegistryState np MapFcn ForceFcn ISpec SSpec :=
  { s with interp_spec := Function.update s.interp_spec part spec }

/-- The registry with spread spec `spec` set for `part`. -/
def withSpreadSpec (s : RegistryState np MapFcn ForceFcn ISpec SSpec)
    (spec : SSpec) (part : Fin np) : RegistryState np MapFcn ForceFcn ISpec SSpec :=
  { s with spread_spec := Function.update s.spread_spec part spec }

/-- Modelled from the spec: the body of
`IBFEMethod::registerStressNormalizationPart` is not under `src/`.  Spec 4.4:
valid only before `initializeFEData`; marks the part as using stress
normalization. -/
def registerStressNormalizationPart (s : RegistryState np MapFcn ForceFcn ISpec SSpec)
    (part : Fin np) : Except RegErr (RegistryState np MapFcn ForceFcn ISpec SSpec) :=
  if s.fe_data_initialized then Except.error RegErr.alreadyInitialized
  else Except.ok (withStressNormalization s part)

/-- Modelled from the spec: the body of
`IBFEMethod::registerInitialCoordinateMappingFunction` is not under `src/`.
Spec 4.4: valid only before `initializeFEData`; stores the optional coordinate
mapping callback for the part. -/
def registerInitialCoordinateMappingFunction
    (s : RegistryState np MapFcn ForceFcn ISpec SSpec) (data : MapFcn) (part : Fin np) :
    Except RegErr (RegistryState np MapFcn ForceFcn ISpec SSpec) :=
  if s.fe_data_initialized then Except.error RegErr.alreadyInitialized
  else Except.ok (withCoordinateMapping s data part)

/-- Modelled from the spec: the body of `IBFEMethod::registerLagForceFunction`
is not under `src/`.  Spec 4.4 and the header note that it is NOT possible to
register multiple body force functions: the call stores the part's single
body-force callback slot, replacing any previously registered function; valid
only before `initializeFEData`. -/
def registerLagForceFunction (s : RegistryState np MapFcn ForceFcn ISpec SSpec)
    (data : ForceFcn) (part : Fin np) :
    Except RegErr (RegistryState np MapFcn ForceFcn ISpec SSpec) :=
  if s.fe_data_initialized then Except.error RegErr.alreadyInitialized
  else Except.ok (withLagForceFcn s data part)

/-- Modelled from the spec: the body of `IBFEMethod::setInterpSpec` is not
under `src/`.  Spec 3 and 4.4: the interp spec is immutable once FE data is
initialized; before that, the call sets the part's interpolation spec. -/
def setInterpSpec (s : RegistryState np MapFcn ForceFcn ISpec SSpec)
    (spec : ISpec) (part : Fin np) :
    Except RegErr (RegistryState np MapFcn ForceFcn ISpec SSpec) :=
  if s.fe_data_initialized then Except.error RegErr.alreadyInitialized
  else Except.ok (withInterpSpec s spec part)

/-- Modelled from the spec: the body of `IBFEMethod::setSpreadSpec` is not
under `src/`.  Spec 3 and 4.4: the spread spec is immutable once FE data is
initialized; before that, the call sets the part's spread spec. -/
def setSpreadSpec (s : RegistryState np MapFcn ForceFcn ISpec SSpec)
    (spec : SSpec) (part : Fin np) :
    Except RegErr (RegistryState np MapFcn ForceFcn ISpec SSpec) :=
  if s.fe_data_initialized then Except.error RegErr.alreadyInitialized
  else Except.ok (withSpreadSpec s spec part)

/-- Modelled from the spec: during `IBFEMethod::computeLagrangianForce` (body
not under `src/`), the registered body-force callback of a part, when one is
present, is invoked once for that part and contributes additively to the
interior force density; a part with no registered callback invokes none.
This counts the callback invocations for one part on one force computation. -/
def lagForceCallbackInvocations (s : RegistryState np MapFcn ForceFcn ISpec SSpec)
    (part : Fin np) : ℕ :=
  match s.lag_force_fcn part with
  | none => 0
  | some _ => 1

/-- A concrete one-part state with two scalar degrees of freedom and zero
current-time velocity: the still-fluid scenario of spec 8. -/
def stillState : MethodState 1 2 :=
  ⟨fun _ =>
    { X_current := fun i => if i = 0 then 1 else 2
      X_half := fun _ => 0
      X_new := fun _ => 0
      U_current := fun _ => 0
      U_half := fun _ => 0
      U_new := fun _ => 0 }⟩

/-- The concrete step interval `(0, 1/100)` of the spec 8 scenario. -/
def stepInterval : TimeInterval := ⟨0, 1 / 100⟩

/-- A concrete one-part, one-node coordinate registry with no coordinate
mapping callback registered. -/
def plainCoordRegistry : CoordRegistry 1 1 Scalar :=
  { X0 := fun _ _ => 5
    mapping := fun _ => ⟨none⟩ }

/-- A concrete conservative kernel on two grid cells and one mesh node: all
the node's weight sits in cell `0`. -/
def atomicKernel : TransferKernel 2 1 :=
  ⟨fun c _ => if c = 0 then 1 else 0⟩

/-- A concrete fresh registry state: one part, nothing registered, FE data
not yet initialized; all payload types are `ℕ`. -/
def freshRegistry : RegistryState 1 ℕ ℕ ℕ ℕ :=
  { fe_data_initialized := false
    stress_normalization_part := fun _ => false
    coordinate_mapping_fcn := fun _ => none
    lag_force_fcn := fun _ => none
    interp_spec := fun _ => 0
    spread_spec := fun _ => 0 }

/-- Every force computation invokes the part's body-force callback at most
once: the slot holds at most one function. -/
theorem lagForceCallbackInvocations_le_one
    (s : RegistryState np MapFcn ForceFcn ISpec SSpec) (part : Fin np) :
    lagForceCallbackInvocations s part ≤ 1 := by
  unfold lagForceCallbackInvocations
  cases s.lag_force_fcn part <;> simp

/-- C1: for every part and mesh node, `forwardEulerStep` over
`(current_time, new_time)` sets `X_new = X_current + dt * U_current` with
`dt = new_time - current_time`; and if the interpolated current-time velocity
is zero at every node, the new position equals the current position. -/
theorem forwardEulerStep_position_update (np n : ℕ) (ti : TimeInterval)
    (s : MethodState np n) (k : Fin np) (i : Fin n) :
    ((forwardEulerStep ti s).parts k).X_new i
      = (s.parts k).X_current i
        + (ti.new_time - ti.current_time) * (s.parts k).U_current i ∧
    ((∀ j, (s.parts k).U_current j = 0) →
      ((forwardEulerStep ti s).parts k).X_new i = (s.parts k).X_current i) := by
  constructor
  · rfl
  · intro h
    show (s.parts k).X_current i + ti.dt * (s.parts k).U_current i
      = (s.parts k).X_current i
    rw [h i, mul_zero, add_zero]

/-- Witness for C1 at the concrete still-fluid scenario. -/
theorem forwardEulerStep_position_update_witness :
    ((forwardEulerStep stepInterval stillState).parts 0).X_new 0
      = (stillState.parts 0).X_current 0 :=
  (forwardEulerStep_position_update 1 2 stepInterval stillState 0 0).2
    fun _ => rfl

/-- C2: for every part and mesh node, `midpointStep` first forms the
provisional half-time position `X_half = X_current + 0.5*dt*U_current`, then
sets `X_new = X_current + dt * U_half`, where `U_half` is the velocity
interpolated at the half time step at the provisional half-time position and
`dt = new_time - current_time`. -/
theorem midpointStep_position_update (np n : ℕ)
    (interp : Scalar → (Fin n → Scalar) → Fin n → Scalar) (ti : TimeInterval)
    (s : MethodState np n) (k : Fin np) (i : Fin n) :
    ((midpointStep interp ti s).parts k).X_half i
      = (s.parts k).X_current i
        + (ti.new_time - ti.current_time) / 2 * (s.parts k).U_current i ∧
    ((midpointStep interp ti s).parts k).U_half
      = interp ti.half_time ((midpointStep interp ti s).parts k).X_half ∧
    ((midpointStep interp ti s).parts k).X_new i
      = (s.parts k).X_current i
        + (ti.new_time - ti.current_time)
          * ((midpointStep interp ti s).parts k).U_half i :=
  ⟨rfl, rfl, rfl⟩

/-- C3: for every part and mesh node, `trapezoidalStep` sets
`X_new = X_current + 0.5*dt*(U_current + U_new)`, reading the current- and
new-time interpolated velocity vectors, with `dt = new_time - current_time`. -/
theorem trapezoidalStep_position_update (np n : ℕ) (ti : TimeInterval)
    (s : MethodState np n) (k : Fin np) (i : Fin n) :
    ((trapezoidalStep ti s).parts k).X_new i
      = (s.parts k).X_current i
        + (ti.new_time - ti.current_time) / 2
          * ((s.parts k).U_current i + (s.parts k).U_new i) :=
  rfl

/-- C4: for every part with no coordinate-mapping callback registered,
`initializeCoordinates` yields physical coordinates equal to the reference
(Lagrangian) coordinates at every node, and the setup pass applies the
mapping (callback or identity) to each part exactly once. -/
theorem initializeCoordinates_identity_default (np n : ℕ) (Pt : Type)
    (r : CoordRegistry np n Pt) (part : Fin np) (i : Fin n)
    (h : (r.mapping part).fcn = none) :
    initializeCoordinates r part i = r.X0 part i ∧
    (setupCoordinatePasses np).count part = 1 := by
  constructor
  · unfold initializeCoordinates applyCoordinateMapping
    rw [h]
  · exact List.count_eq_one_of_mem (List.nodup_finRange np) (List.mem_finRange part)

/-- Witness for C4 at the concrete registry with no callback. -/
theorem initializeCoordinates_identity_default_witness :
    initializeCoordinates plainCoordRegistry 0 0 = plainCoordRegistry.X0 0 0 ∧
    (setupCoordinatePasses 1).count 0 = 1 :=
  initializeCoordinates_identity_default 1 1 Scalar plainCoordRegistry 0 0 rfl

/-- C5: for every nodal force field, spreading conserves total force: when
the kernel satisfies the discrete conservation (zeroth-moment) condition of
its width, the sum over grid cells of the spread contributions equals the
integral of the nodal force field over the mesh. -/
theorem spreadForce_conserves_total (m n : ℕ) (κ : TransferKernel m n)
    (hκ : κ.conservative) (g : Fin n → Scalar) :
    gridTotal (spreadForce κ g) = meshTotal g := by
  unfold gridTotal spreadForce meshTotal
  rw [Finset.sum_comm]
  refine Finset.sum_congr rfl fun k _ => ?_
  rw [← Finset.sum_mul, hκ k, one_mul]

/-- Witness for C5 at the concrete conservative kernel. -/
theorem spreadForce_conserves_total_witness :
    atomicKernel.conservative ∧
    gridTotal (spreadForce atomicKernel fun _ => 3) = @meshTotal 1 fun _ => 3 := by
  have hc : atomicKernel.conservative := by
    intro k
    simp [atomicKernel, TransferKernel.conservative, Fin.sum_univ_two]
  exact ⟨hc, spreadForce_conserves_total 2 1 atomicKernel hc fun _ => 3⟩

/-- C6: interpolation and spreading are discrete adjoints: for every grid
field `f` and nodal field `g` over the same kernel, the mesh inner product of
`interp f` with `g` equals the grid inner product of `f` with `spread g`. -/
theorem interpolateVelocity_spreadForce_adjoint (m n : ℕ) (κ : TransferKernel m n)
    (f : Fin m → Scalar) (g : Fin n → Scalar) :
    meshInner (interpolateVelocity κ f) g = gridInner f (spreadForce κ g) := by
  unfold meshInner gridInner interpolateVelocity spreadForce
  simp only [Finset.sum_mul, Finset.mul_sum]
  rw [Finset.sum_comm]
  exact Finset.sum_congr rfl fun c _ => Finset.sum_congr rfl fun k _ => by ring

/-- C7: with `d_use_jump_conditions` disabled, the jump-field systems are
absent (`none`, not merely zero) and the computed interior force density is
exactly the unsplit force of a configuration with jump handling compiled
out. -/
theorem computeInteriorForceDensity_jump_disabled (n : ℕ) (fm : ForceModel n)
    (X : Fin n → Scalar) :
    (computeInteriorForceDensity fm false X).jump = none ∧
    (computeInteriorForceDensity fm false X).F = interiorForceDensityNoJump fm X :=
  ⟨rfl, rfl⟩

/-- C8: on every step on which jump conditions are applied
(`d_use_jump_conditions` on), exactly one of the weak and pointwise
jump-imposition routines runs for a part, the choice following the sub-flag,
and the two are never both invoked for the same part and step. -/
theorem jumpCallsForStep_exclusive (cfg : JumpConfig)
    (h : cfg.use_jump_conditions = true) :
    (jumpCallsForStep cfg).length = 1 ∧
    jumpCallsForStep cfg
      = (if cfg.use_weak_form then [JumpCall.weak] else [JumpCall.pointwise]) ∧
    ¬(JumpCall.weak ∈ jumpCallsForStep cfg ∧
        JumpCall.pointwise ∈ jumpCallsForStep cfg) := by
  unfold jumpCallsForStep
  rw [h]
  by_cases hw : cfg.use_weak_form <;> simp [hw]

/-- Witness for C8 at the concrete configuration selecting the weak form. -/
theorem jumpCallsForStep_exclusive_witness :
    (jumpCallsForStep ⟨true, true⟩).length = 1 ∧
    jumpCallsForStep ⟨true, true⟩
      = (if (JumpConfig.mk true true).use_weak_form then [JumpCall.weak]
          else [JumpCall.pointwise]) ∧
    ¬(JumpCall.weak ∈ jumpCallsForStep ⟨true, true⟩ ∧
        JumpCall.pointwise ∈ jumpCallsForStep ⟨true, true⟩) :=
  jumpCallsForStep_exclusive ⟨true, true⟩ rfl

/-- C9: before `initializeFEData`, every registration and configuration call
succeeds and records its payload; after `initializeFEData`, every one of the
five calls fails with `alreadyInitialized`, so the part's configuration
(including its interp and spread specs) is frozen. -/
theorem registration_frozen_after_initializeFEData (np : ℕ)
    (MapFcn ForceFcn ISpec SSpec : Type)
    (s : RegistryState np MapFcn ForceFcn ISpec SSpec) (part : Fin np)
    (mf : MapFcn) (ff : ForceFcn) (isp : ISpec) (ssp : SSpec)
    (h : s.fe_data_initialized = false) :
    registerStressNormalizationPart s part
      = Except.ok (withStressNormalization s part) ∧
    registerInitialCoordinateMappingFunction s mf part
      = Except.ok (withCoordinateMapping s mf part) ∧
    registerLagForceFunction s ff part = Except.ok (withLagForceFcn s ff part) ∧
    setInterpSpec s isp part = Except.ok (withInterpSpec s isp part) ∧
    setSpreadSpec s ssp part = Except.ok (withSpreadSpec s ssp part) ∧
    registerStressNormalizationPart (initializeFEData s) part
      = Except.error RegErr.alreadyInitialized ∧
    registerInitialCoordinateMappingFunction (initializeFEData s) mf part
      = Except.error RegErr.alreadyInitialized ∧
    registerLagForceFunction (initializeFEData s) ff part
      = Except.error RegErr.alreadyInitialized ∧
    setInterpSpec (initializeFEData s) isp part
      = Except.error RegErr.alreadyInitialized ∧
    setSpreadSpec (initializeFEData s) ssp part
      = Except.error RegErr.alreadyInitialized := by
  refine ⟨?_, ?_, ?_, ?_, ?_, ?_, ?_, ?_, ?_, ?_⟩ <;>
    simp [registerStressNormalizationPart, registerInitialCoordinateMappingFunction,
      registerLagForceFunction, setInterpSpec, setSpreadSpec, initializeFEData, h]

/-- Witness for C9 at the concrete fresh registry. -/
theorem registration_frozen_after_initializeFEData_witness :
    registerStressNormalizationPart freshRegistry 0
      = Except.ok (withStressNormalization freshRegistry 0) ∧
    registerInitialCoordinateMappingFunction freshRegistry 7 0
      = Except.ok (withCoordinateMapping freshRegistry 7 0) ∧
    registerLagForceFunction freshRegistry 8 0
      = Except.ok (withLagForceFcn freshRegistry 8 0) ∧
    setInterpSpec freshRegistry 9 0
      = Except.ok (withInterpSpec freshRegistry 9 0) ∧
    setSpreadSpec freshRegistry 10 0
      = Except.ok (withSpreadSpec freshRegistry 10 0) ∧
    registerStressNormalizationPart (initializeFEData freshRegistry) 0
      = Except.error RegErr.alreadyInitialized ∧
    registerInitialCoordinateMappingFunction (initializeFEData freshRegistry) 7 0
      = Except.error RegErr.alreadyInitialized ∧
    registerLagForceFunction (initializeFEData freshRegistry) 8 0
      = Except.error RegErr.alreadyInitialized ∧
    setInterpSpec (initializeFEData freshRegistry) 9 0
      = Except.error RegErr.alreadyInitialized ∧
    setSpreadSpec (initializeFEData freshRegistry) 10 0
      = Except.error RegErr.alreadyInitialized :=
  registration_frozen_after_initializeFEData 1 ℕ ℕ ℕ ℕ freshRegistry 0 7 8 9 10 rfl

/-- C10: a later `registerLagForceFunction` call for the same part replaces
the previously registered body-force function (the slot holds at most one),
and force computation invokes exactly that one callback for the part — at
most one callback per part. -/
theorem registerLagForceFunction_replaces (np : ℕ)
    (MapFcn ForceFcn ISpec SSpec : Type)
    (s : RegistryState np MapFcn ForceFcn ISpec SSpec)
    (d1 d2 : ForceFcn) (part q : Fin np)
    (h : s.fe_data_initialized = false) :
    registerLagForceFunction s d1 part = Except.ok (withLagForceFcn s d1 part) ∧
    registerLagForceFunction (withLagForceFcn s d1 part) d2 part
      = Except.ok (withLagForceFcn (withLagForceFcn s d1 part) d2 part) ∧
    (withLagForceFcn (withLagForceFcn s d1 part) d2 part).lag_force_fcn part
      = some d2 ∧
    lagForceCallbackInvocations (withLagForceFcn (withLagForceFcn s d1 part) d2 part)
      part = 1 ∧
    lagForceCallbackInvocations (withLagForceFcn (withLagForceFcn s d1 part) d2 part)
      q ≤ 1 := by
  refine ⟨?_, ?_, ?_, ?_, lagForceCallbackInvocations_le_one _ q⟩
  · unfold registerLagForceFunction
    rw [h]
    rfl
  · unfold registerLagForceFunction withLagForceFcn
    rw [h]
    rfl
  · unfold withLagForceFcn
    simp
  · unfold lagForceCallbackInvocations withLagForceFcn
    simp

/-- Witness for C10 at the concrete fresh registry: registering `7` then `8`
for part `0` leaves `8` as the only registered callback. -/
theorem registerLagForceFunction_replaces_witness :
    registerLagForceFunction freshRegistry 7 0
      = Except.ok (withLagForceFcn freshRegistry 7 0) ∧
    registerLagForceFunction (withLagForceFcn freshRegistry 7 0) 8 0
      = Except.ok (withLagForceFcn (withLagForceFcn freshRegistry 7 0) 8 0) ∧
    (withLagForceFcn (withLagForceFcn freshRegistry 7 0) 8 0).lag_force_fcn 0
      = some 8 ∧
    lagForceCallbackInvocations
      (withLagForceFcn (withLagForceFcn freshRegistry 7 0) 8 0) 0 = 1 ∧
    lagForceCallbackInvocations
      (withLagForceFcn (withLagForceFcn freshRegistry 7 0) 8 0) 0 ≤ 1 :=
  registerLagForceFunction_replaces 1 ℕ ℕ ℕ ℕ freshRegistry 7 8 0 0 rfl

end IBFE
